import Mathlib

/-!
A verification model of the SPIFlash driver (src/SPIFlash.h).

The header declares the command opcodes, the class interface and the
default arguments; the method bodies are not part of src, so each driver
operation below is modelled from the specification's description of that
operation (its doc comment says so explicitly).

The driver is embedded as a family of functions that thread the state of a
mock SPI flash chip (`Chip`) and record the observable bus activity as a
list of events (`Ev`).  Each byte exchange additionally records whether the
chip was awaiting a command opcode at that moment and whether its BUSY bit
was set, so that protocol-ordering properties (write-enable discipline,
busy-wait discipline) can be stated about the trace.
-/

/-- Opcode from src/SPIFlash.h line 49: write enable. -/
def SPIFLASH_WRITEENABLE : Nat := 0x06

/-- Opcode from src/SPIFlash.h line 50: write disable. -/
def SPIFLASH_WRITEDISABLE : Nat := 0x04

/-- Opcode from src/SPIFlash.h line 52: erase one 4K block. -/
def SPIFLASH_BLOCKERASE_4K : Nat := 0x20

/-- Opcode from src/SPIFlash.h line 53: erase one 32K block. -/
def SPIFLASH_BLOCKERASE_32K : Nat := 0x52

/-- Opcode from src/SPIFlash.h line 54: erase one 64K block. -/
def SPIFLASH_BLOCKERASE_64K : Nat := 0xD8

/-- Opcode from src/SPIFlash.h line 55: chip erase. -/
def SPIFLASH_CHIPERASE : Nat := 0x60

/-- Opcode from src/SPIFlash.h line 57: read status register. -/
def SPIFLASH_STATUSREAD : Nat := 0x05

/-- Opcode from src/SPIFlash.h line 58: write status register. -/
def SPIFLASH_STATUSWRITE : Nat := 0x01

/-- Opcode from src/SPIFlash.h line 59: fast array read. -/
def SPIFLASH_ARRAYREAD : Nat := 0x0B

/-- Opcode from src/SPIFlash.h line 60: low-frequency array read. -/
def SPIFLASH_ARRAYREADLOWFREQ : Nat := 0x03

/-- Opcode from src/SPIFlash.h line 62: deep power down. -/
def SPIFLASH_SLEEP : Nat := 0xB9

/-- Opcode from src/SPIFlash.h line 63: deep power wake up. -/
def SPIFLASH_WAKE : Nat := 0xAB

/-- Opcode from src/SPIFlash.h line 64: byte/page program (1 to 256 bytes). -/
def SPIFLASH_BYTEPAGEPROGRAM : Nat := 0x02

/-- Opcode from src/SPIFlash.h line 65: read JEDEC manufacturer/device id. -/
def SPIFLASH_IDREAD : Nat := 0x9F

/-- Opcode from src/SPIFlash.h line 68: read unique id number (MAC). -/
def SPIFLASH_MACREAD : Nat := 0x4B

/-- Constant from src/SPIFlash.h line 69: wake-up response delay in µs. -/
def SPIFLASH_T_RES_1_US : Nat := 3

/-- One observable event on the SPI bus. `xfer mosi miso atOpcode busyBefore`
records a full-duplex byte exchange: the byte the master drove, the byte the
chip returned, whether the chip was awaiting a command opcode when the byte
was clocked, and whether the chip's BUSY bit was set at that moment.
`deselect us` carries the settle delay passed to `unselect`. -/
inductive Ev where
  | select : Ev
  | deselect : Nat → Ev
  | xfer : Nat → Nat → Bool → Bool → Ev
  deriving DecidableEq, Repr

/-- Protocol position of the mock chip inside the current select/deselect
bracket: which part of a command frame it expects or serves next. -/
inductive Frame where
  | idle
  | awaitOpcode
  | statusOut
  | rdA (got acc : Nat)
  | rdOut (addr : Nat)
  | prA (got acc : Nat)
  | prog (page off : Nat)
  | erA (sz got acc : Nat)
  | erPend (sz addr : Nat)
  | chipErPend
  | idOut (idx : Nat)
  | uidDummy (got : Nat)
  | uidOut (idx : Nat)
  | opDone
  deriving DecidableEq, Repr

/-- State of the mock SPI flash chip. `mem` is the byte array, `busyCycles`
counts how many further status reads will still report BUSY (each status
read makes progress on the pending erase/program), `wel` is the
write-enable latch, `tProg`/`tErase` are the busy durations the chip enters
after accepting a program/erase, and `frame` is its protocol position. -/
structure Chip where
  mem : Nat → Nat
  busyCycles : Nat
  wel : Bool
  jedecId : Nat
  uid : List Nat
  tProg : Nat
  tErase : Nat
  frame : Frame

/-- Device handle fields declared in src/SPIFlash.h lines 95-96. -/
structure SPIFlash where
  slaveSelectPin : Nat
  jedecID : Nat

/-- The one-argument constructor form `SPIFlash(pin)`: src/SPIFlash.h line 74
defaults the expected JEDEC id to 0. -/
def mkSPIFlash (pin : Nat) : SPIFlash :=
  { slaveSelectPin := pin, jedecID := 0 }

/-- Status byte of the mock chip: bit 0 is BUSY, bit 1 mirrors the
write-enable latch (spec: bit 0 = BUSY, other bits manufacturer-specific). -/
def statusByte (c : Chip) : Nat :=
  (if 0 < c.busyCycles then 1 else 0) + (if c.wel then 2 else 0)

/-- Replace every byte of `[base, base+sz)` with the erased value 0xFF. -/
def eraseRange (mem : Nat → Nat) (base sz : Nat) : Nat → Nat :=
  fun x => if base ≤ x ∧ x < base + sz then 255 else mem x

/-- Chip reaction to one byte clocked in while selected: returns the byte it
drives back and its next state.  NAND semantics from src/SPIFlash.h lines
27-30: programming can only clear bits, so a program stores `old &&& new`;
inside a 256-byte page the program offset wraps around (spec §4 writeBytes).
Mutating opcodes are honoured only when the write-enable latch is set
(src/SPIFlash.h lines 33-35). -/
def chipXfer (c : Chip) (b : Nat) : Nat × Chip :=
  match c.frame with
  | Frame.awaitOpcode =>
    (0,
      if b = SPIFLASH_WRITEENABLE then {c with wel := true, frame := Frame.opDone}
      else if b = SPIFLASH_WRITEDISABLE then {c with wel := false, frame := Frame.opDone}
      else if b = SPIFLASH_STATUSREAD then {c with frame := Frame.statusOut}
      else if b = SPIFLASH_ARRAYREADLOWFREQ then {c with frame := Frame.rdA 0 0}
      else if b = SPIFLASH_BYTEPAGEPROGRAM then
        (if c.wel then {c with frame := Frame.prA 0 0} else {c with frame := Frame.opDone})
      else if b = SPIFLASH_BLOCKERASE_4K then
        (if c.wel then {c with frame := Frame.erA 4096 0 0} else {c with frame := Frame.opDone})
      else if b = SPIFLASH_BLOCKERASE_32K then
        (if c.wel then {c with frame := Frame.erA 32768 0 0} else {c with frame := Frame.opDone})
      else if b = SPIFLASH_BLOCKERASE_64K then
        (if c.wel then {c with frame := Frame.erA 65536 0 0} else {c with frame := Frame.opDone})
      else if b = SPIFLASH_CHIPERASE then
        (if c.wel then {c with frame := Frame.chipErPend} else {c with frame := Frame.opDone})
      else if b = SPIFLASH_IDREAD then {c with frame := Frame.idOut 0}
      else if b = SPIFLASH_MACREAD then {c with frame := Frame.uidDummy 0}
      else {c with frame := Frame.opDone})
  | Frame.statusOut => (statusByte c, {c with busyCycles := c.busyCycles - 1})
  | Frame.rdA got acc =>
    if got = 2 then (0, {c with frame := Frame.rdOut (acc * 256 + b)})
    else (0, {c with frame := Frame.rdA (got + 1) (acc * 256 + b)})
  | Frame.rdOut a => (c.mem a, {c with frame := Frame.rdOut (a + 1)})
  | Frame.prA got acc =>
    if got = 2 then
      (0, {c with frame := Frame.prog ((acc * 256 + b) / 256 * 256) ((acc * 256 + b) % 256)})
    else (0, {c with frame := Frame.prA (got + 1) (acc * 256 + b)})
  | Frame.prog page off =>
    (0, {c with
          mem := fun x => if x = page + off then c.mem (page + off) &&& b else c.mem x,
          frame := Frame.prog page ((off + 1) % 256)})
  | Frame.erA sz got acc =>
    if got = 2 then (0, {c with frame := Frame.erPend sz (acc * 256 + b)})
    else (0, {c with frame := Frame.erA sz (got + 1) (acc * 256 + b)})
  | Frame.erPend _ _ => (0, c)
  | Frame.chipErPend => (0, c)
  | Frame.idOut idx =>
    ((if idx = 0 then (c.jedecId >>> 8) % 256 else if idx = 1 then c.jedecId % 256 else 0),
      {c with frame := Frame.idOut (idx + 1)})
  | Frame.uidDummy got =>
    if got = 3 then (0, {c with frame := Frame.uidOut 0})
    else (0, {c with frame := Frame.uidDummy (got + 1)})
  | Frame.uidOut idx => (c.uid.getD idx 0, {c with frame := Frame.uidOut (idx + 1)})
  | Frame.opDone => (0, c)
  | Frame.idle => (0, c)

/-- Chip reaction to deselection: a pending program or erase is committed,
the chip becomes BUSY for its program/erase duration, and the write-enable
latch auto-clears (src/SPIFlash.h lines 36-47). -/
def chipDeselect (c : Chip) : Chip :=
  match c.frame with
  | Frame.prog _ _ =>
    {c with busyCycles := c.tProg, wel := false, frame := Frame.idle}
  | Frame.erPend sz a =>
    {c with
      mem := eraseRange c.mem (a / sz * sz) sz,
      busyCycles := c.tErase, wel := false, frame := Frame.idle}
  | Frame.chipErPend =>
    {c with mem := fun _ => 255, busyCycles := c.tErase, wel := false, frame := Frame.idle}
  | _ => {c with frame := Frame.idle}

/-- Does the chip currently expect a command opcode byte? -/
def isAwait : Frame → Bool
  | Frame.awaitOpcode => true
  | _ => false

/-- Modelled from the spec: `select()` asserts the chip-select line
(declared src/SPIFlash.h line 93; the body is not in src); the chip starts
a fresh command frame. -/
def select (c : Chip) : Chip × List Ev :=
  ({c with frame := Frame.awaitOpcode}, [Ev.select])

/-- Modelled from the spec: `unselect(us)` deasserts the chip-select line
with an optional settle delay (declared src/SPIFlash.h line 94; the body is
not in src). -/
def unselect (c : Chip) (us : Nat) : Chip × List Ev :=
  (chipDeselect c, [Ev.deselect us])

/-- One `SPI.transfer` byte exchange, recording the bus event together with
the chip's opcode-position and BUSY condition at that instant. -/
def transfer (c : Chip) (b : Nat) : Nat × Chip × List Ev :=
  let p := chipXfer c b
  (p.1, p.2, [Ev.xfer b p.1 (isAwait c.frame) (decide (0 < c.busyCycles))])

/-- Modelled from the spec: `readStatus()` brackets opcode 0x05 with
select/deselect and returns the single status byte (declared
src/SPIFlash.h line 77; the body is not in src). -/
def readStatus (c : Chip) : Nat × Chip × List Ev :=
  let p1 := select c
  let p2 := transfer p1.1 SPIFLASH_STATUSREAD
  let p3 := transfer p2.2.1 0
  let p4 := unselect p3.2.1 0
  (p3.1, p4.1, p1.2 ++ p2.2.2 ++ p3.2.2 ++ p4.2)

/-- Modelled from the spec: `busy()` is `readStatus() & 1 != 0` (declared
src/SPIFlash.h line 82; the body is not in src). -/
def busy (c : Chip) : Bool × Chip × List Ev :=
  let p := readStatus c
  (decide (p.1 &&& 1 ≠ 0), p.2.1, p.2.2)

/-- The busy-poll loop `while (busy());`, recursing on a fuel argument.
Each status read makes the mock chip's pending operation progress by one
step, so running the loop with fuel `c.busyCycles` never exhausts the fuel:
the loop stops exactly when `busy()` first returns false (with fuel 0 the
single poll already reads BUSY clear). -/
def busyWaitGo : Nat → Chip → Chip × List Ev
  | 0, c =>
    let p := busy c
    (p.2.1, p.2.2)
  | f + 1, c =>
    let p := busy c
    if p.1 then
      let q := busyWaitGo f p.2.1
      (q.1, p.2.2 ++ q.2)
    else (p.2.1, p.2.2)

/-- Modelled from the spec: the tight polling loop of `command`, step 2 —
poll the status register until the BUSY bit clears. -/
def busyWaitLoop (c : Chip) : Chip × List Ev :=
  busyWaitGo c.busyCycles c

/-- Modelled from the spec: the command framing primitive
`command(cmd, isWrite, busyWait)` (declared src/SPIFlash.h line 76; the
body is not in src).  Step 1: if `isWrite`, issue a standalone write-enable
command (opcode 0x06) bracketed by its own select/deselect.  Step 2: if
`busyWait`, poll the status register until BUSY clears.  Step 3: assert
chip-select and transmit the opcode, leaving the selection open for the
caller to append address/data bytes. -/
def command (c : Chip) (cmd : Nat) (isWrite busyWait : Bool) : Chip × List Ev :=
  let s1 : Chip × List Ev :=
    if isWrite then
      let p1 := select c
      let p2 := transfer p1.1 SPIFLASH_WRITEENABLE
      let p3 := unselect p2.2.1 0
      (p3.1, p1.2 ++ p2.2.2 ++ p3.2)
    else (c, [])
  let s2 : Chip × List Ev :=
    if busyWait then
      let p := busyWaitLoop s1.1
      (p.1, s1.2 ++ p.2)
    else s1
  let p4 := select s2.1
  let p5 := transfer p4.1 cmd
  (p5.2.1, s2.2 ++ p4.2 ++ p5.2.2)

/-- Transmit the three big-endian address bytes of a 24-bit address
(spec §6: address bytes are sent most-significant-byte first). -/
def sendAddr (c : Chip) (a : Nat) : Chip × List Ev :=
  let p1 := transfer c ((a >>> 16) % 256)
  let p2 := transfer p1.2.1 ((a >>> 8) % 256)
  let p3 := transfer p2.2.1 (a % 256)
  (p3.2.1, p1.2.2 ++ p2.2.2 ++ p3.2.2)

/-- Transmit a list of payload bytes one `SPI.transfer` at a time. -/
def transferList (c : Chip) (bs : List Nat) : Chip × List Ev :=
  match bs with
  | [] => (c, [])
  | b :: rest =>
    let p := transfer c b
    let q := transferList p.2.1 rest
    (q.1, p.2.2 ++ q.2)

/-- Clock in `n` bytes by transmitting `n` dummy zero bytes. -/
def readList (c : Chip) (n : Nat) : List Nat × Chip × List Ev :=
  match n with
  | 0 => ([], c, [])
  | n + 1 =>
    let p := transfer c 0
    let q := readList p.2.1 n
    (p.1 :: q.1, q.2.1, p.2.2 ++ q.2.2)

/-- Modelled from the spec: `readByte(addr)` frames opcode 0x03 plus three
address bytes, clocks one byte in and deselects (declared src/SPIFlash.h
line 78; the body is not in src; `command`'s defaults on line 76 are
`isWrite=false, busyWait=true`). -/
def readByte (c : Chip) (addr : Nat) : Nat × Chip × List Ev :=
  let p1 := command c SPIFLASH_ARRAYREADLOWFREQ false true
  let p2 := sendAddr p1.1 addr
  let p3 := transfer p2.1 0
  let p4 := unselect p3.2.1 0
  (p3.1, p4.1, p1.2 ++ p2.2 ++ p3.2.2 ++ p4.2)

/-- Modelled from the spec: `readBytes(addr, len)` frames opcode 0x03 plus
three address bytes, clocks `len` bytes in sequentially (the chip
auto-increments its internal address) and deselects (declared
src/SPIFlash.h line 79; the body is not in src). -/
def readBytes (c : Chip) (addr len : Nat) : List Nat × Chip × List Ev :=
  let p1 := command c SPIFLASH_ARRAYREADLOWFREQ false true
  let p2 := sendAddr p1.1 addr
  let p3 := readList p2.1 len
  let p4 := unselect p3.2.1 0
  (p3.1, p4.1, p1.2 ++ p2.2 ++ p3.2.2 ++ p4.2)

/-- Modelled from the spec: `writeByte(addr, byt)` issues `command` with
`isWrite=true, busyWait=true` for opcode 0x02, appends three address bytes
and the data byte, and deselects without waiting for the program to
complete (declared src/SPIFlash.h line 80; the body is not in src). -/
def writeByte (c : Chip) (addr byt : Nat) : Chip × List Ev :=
  let p1 := command c SPIFLASH_BYTEPAGEPROGRAM true true
  let p2 := sendAddr p1.1 addr
  let p3 := transfer p2.1 byt
  let p4 := unselect p3.2.1 0
  (p4.1, p1.2 ++ p2.2 ++ p3.2.2 ++ p4.2)

/-- Modelled from the spec: `writeBytes(addr, buf, len)` is `writeByte` for
a payload of several bytes; the driver performs no validation of the
length or of page-boundary crossings (declared src/SPIFlash.h line 81; the
body is not in src). -/
def writeBytes (c : Chip) (addr : Nat) (buf : List Nat) : Chip × List Ev :=
  let p1 := command c SPIFLASH_BYTEPAGEPROGRAM true true
  let p2 := sendAddr p1.1 addr
  let p3 := transferList p2.1 buf
  let p4 := unselect p3.1 0
  (p4.1, p1.2 ++ p2.2 ++ p3.2 ++ p4.2)

/-- Modelled from the spec: `chipErase()` issues opcode 0x60 as a
write-class busy-waiting command with no address and returns once the
command is accepted (declared src/SPIFlash.h line 83; the body is not in
src). -/
def chipErase (c : Chip) : Chip × List Ev :=
  let p1 := command c SPIFLASH_CHIPERASE true true
  let p2 := unselect p1.1 0
  (p2.1, p1.2 ++ p2.2)

/-- Modelled from the spec: `blockErase4K(address)` issues erase opcode 0x20
as a write-class busy-waiting command with the 3-byte sector address
(declared src/SPIFlash.h line 84; the body is not in src). -/
def blockErase4K (c : Chip) (address : Nat) : Chip × List Ev :=
  let p1 := command c SPIFLASH_BLOCKERASE_4K true true
  let p2 := sendAddr p1.1 address
  let p3 := unselect p2.1 0
  (p3.1, p1.2 ++ p2.2 ++ p3.2)

/-- Modelled from the spec: `blockErase32K(address)` issues erase opcode
0x52 as a write-class busy-waiting command with the 3-byte block address
(declared src/SPIFlash.h line 85; the body is not in src). -/
def blockErase32K (c : Chip) (address : Nat) : Chip × List Ev :=
  let p1 := command c SPIFLASH_BLOCKERASE_32K true true
  let p2 := sendAddr p1.1 address
  let p3 := unselect p2.1 0
  (p3.1, p1.2 ++ p2.2 ++ p3.2)

/-- Modelled from the spec: the spec names `blockErase4K/32K/64K` together
and describes the 64K variant as issuing erase opcode 0xD8 as a
write-class busy-waiting command with the 3-byte block address.  The
complete class declaration in src/SPIFlash.h lines 71-97 declares no
blockErase64K member — only the opcode constant exists (line 54) — so this
definition models the spec's described 64K variant, an operation the
staged driver interface does not expose; the protocol properties that
quantify over it treat it as the spec's hypothetical extension alongside
the two declared erases. -/
def blockErase64K (c : Chip) (address : Nat) : Chip × List Ev :=
  let p1 := command c SPIFLASH_BLOCKERASE_64K true true
  let p2 := sendAddr p1.1 address
  let p3 := unselect p2.1 0
  (p3.1, p1.2 ++ p2.2 ++ p3.2)

/-- Modelled from the spec: `readDeviceId()` frames opcode 0x9F, reads two
bytes and returns their big-endian concatenation, the first byte on the
wire being the high byte (declared src/SPIFlash.h line 86; the body is not
in src). -/
def readDeviceId (c : Chip) : Nat × Chip × List Ev :=
  let p1 := command c SPIFLASH_IDREAD false true
  let p2 := transfer p1.1 0
  let p3 := transfer p2.2.1 0
  let p4 := unselect p3.2.1 0
  (p2.1 * 256 + p3.1, p4.1, p1.2 ++ p2.2.2 ++ p3.2.2 ++ p4.2)

/-- Modelled from the spec: `SPIFlash::initialize()` (the name here avoids
a Lean keyword) pulses chip-select, issues the device-id read, and
succeeds unless a nonzero expected JEDEC id was stored in the handle and
differs from the id the device returned (declared src/SPIFlash.h line 75;
the body is not in src; 0 is the constructor's "no expected id" default on
line 74, so a zero expected id disables the comparison). -/
def initializeDevice (h : SPIFlash) (c : Chip) : Bool × Chip × List Ev :=
  let p0 := select c
  let p1 := unselect p0.1 0
  let p2 := readDeviceId p1.1
  ((h.jedecID == 0) || (p2.1 == h.jedecID), p2.2.1, p0.2 ++ p1.2 ++ p2.2.2)

/-- Identity of the buffer a `readUniqueId()` call returns: the C++ method
returns `byte*`, and the only buffer it ever returns is the process-wide
static `SPIFlash::UNIQUEID` (src/SPIFlash.h line 73). -/
inductive BufRef where
  | uniqueIdStatic : BufRef
  deriving DecidableEq, Repr

/-- Process-wide mutable state: the chip on the bus and the static
`SPIFlash::UNIQUEID` cache shared by every `SPIFlash` instance
(src/SPIFlash.h line 73). -/
structure World where
  chip : Chip
  UNIQUEID : List Nat

/-- Modelled from the spec: `readUniqueId()` frames opcode 0x4B plus four
dummy bytes, reads 8 bytes into the process-wide `UNIQUEID` cache and
returns a reference to that cache (declared src/SPIFlash.h line 87; the
body is not in src).  The handle argument mirrors the C++ receiver; it
plays no role in where the bytes are stored. -/
def readUniqueId (_h : SPIFlash) (w : World) : BufRef × World × List Ev :=
  let p1 := command w.chip SPIFLASH_MACREAD false true
  let d1 := transfer p1.1 0
  let d2 := transfer d1.2.1 0
  let d3 := transfer d2.2.1 0
  let d4 := transfer d3.2.1 0
  let r0 := transfer d4.2.1 0
  let r1 := transfer r0.2.1 0
  let r2 := transfer r1.2.1 0
  let r3 := transfer r2.2.1 0
  let r4 := transfer r3.2.1 0
  let r5 := transfer r4.2.1 0
  let r6 := transfer r5.2.1 0
  let r7 := transfer r6.2.1 0
  let fin := unselect r7.2.1 0
  (BufRef.uniqueIdStatic,
    { chip := fin.1,
      UNIQUEID := [r0.1, r1.1, r2.1, r3.1, r4.1, r5.1, r6.1, r7.1] },
    p1.2 ++ d1.2.2 ++ d2.2.2 ++ d3.2.2 ++ d4.2.2 ++ r0.2.2 ++ r1.2.2 ++
      r2.2.2 ++ r3.2.2 ++ r4.2.2 ++ r5.2.2 ++ r6.2.2 ++ r7.2.2 ++ fin.2)

/-- Modelled from the spec: `sleep()` issues single-opcode command 0xB9
(declared src/SPIFlash.h line 89; the body is not in src). -/
def sleep (c : Chip) : Chip × List Ev :=
  let p1 := command c SPIFLASH_SLEEP false true
  let p2 := unselect p1.1 0
  (p2.1, p1.2 ++ p2.2)

/-- Modelled from the spec: `wakeup()` issues single-opcode command 0xAB and
deselects with the fixed device response delay of 3µs (declared
src/SPIFlash.h line 90; the body is not in src). -/
def wakeup (c : Chip) : Chip × List Ev :=
  let p1 := command c SPIFLASH_WAKE false true
  let p2 := unselect p1.1 SPIFLASH_T_RES_1_US
  (p2.1, p1.2 ++ p2.2)

/-- Events issuing the write-enable opcode 0x06 at opcode position. -/
def isWEissue : Ev → Bool
  | Ev.xfer m _ atOp _ => atOp && (m == 6)
  | _ => false

/-- Events issuing a write-class opcode (erase 4K/32K/64K, chip erase,
byte/page program, status write) at opcode position. -/
def isWriteClassIssue : Ev → Bool
  | Ev.xfer m _ atOp _ =>
    atOp && (m == 0x20 || m == 0x52 || m == 0xD8 || m == 0x60 || m == 0x02 || m == 0x01)
  | _ => false

/-- The BUSY flag recorded on an event (false for select/deselect). -/
def evBusyBefore : Ev → Bool
  | Ev.xfer _ _ _ b => b
  | _ => false

/-- Events a status-poll loop may produce: select/deselect brackets, the
status opcode 0x05 at opcode position, and dummy bytes off opcode
position. -/
def pollEv : Ev → Bool
  | Ev.select => true
  | Ev.deselect _ => true
  | Ev.xfer m _ atOp _ => (atOp && (m == 5)) || (!atOp && (m == 0))

/-- No write-class opcode is issued on the bus while the chip reports
BUSY. -/
def noBusyViol (t : List Ev) : Prop :=
  ∀ e ∈ t, isWriteClassIssue e = true → evBusyBefore e = false

/-- The three big-endian address-byte events of address `a`: by the time
they are clocked the chip is past opcode position and no longer busy. -/
def addrEvs (a : Nat) : List Ev :=
  [Ev.xfer ((a >>> 16) % 256) 0 false false,
   Ev.xfer ((a >>> 8) % 256) 0 false false,
   Ev.xfer (a % 256) 0 false false]

/-- Memory contents after programming byte list `bs` starting at offset
`off` of page base `page`: each byte is ANDed into its cell and the offset
wraps within the 256-byte page. -/
def progWrite : (Nat → Nat) → Nat → Nat → List Nat → Nat → Nat
  | mem, _, _, [] => mem
  | mem, page, off, b :: bs =>
    progWrite (fun x => if x = page + off then mem (page + off) &&& b else mem x)
      page ((off + 1) % 256) bs

/-- The `n` bytes the chip streams out starting at address `a`. -/
def readOutBytes (mem : Nat → Nat) : Nat → Nat → List Nat
  | _, 0 => []
  | a, n + 1 => mem a :: readOutBytes mem (a + 1) n

/-- The `n` bus events of streaming `n` bytes out starting at address
`a`. -/
def readOutEvs (mem : Nat → Nat) : Nat → Nat → List Ev
  | _, 0 => []
  | a, n + 1 => Ev.xfer 0 (mem a) false false :: readOutEvs mem (a + 1) n

/-- The 8 unique-id bytes the chip serves in a 0x4B transaction. -/
def uidServed (c : Chip) : List Nat :=
  [c.uid.getD 0 0, c.uid.getD 1 0, c.uid.getD 2 0, c.uid.getD 3 0,
   c.uid.getD 4 0, c.uid.getD 5 0, c.uid.getD 6 0, c.uid.getD 7 0]

/-- A concrete idle chip with fully erased memory and JEDEC id 0x1F44,
used by the witnesses. -/
def chip0 : Chip :=
  { mem := fun _ => 255, busyCycles := 0, wel := false, jedecId := 0x1F44,
    uid := [17, 34, 51, 68, 85, 102, 119, 136], tProg := 1, tErase := 2,
    frame := Frame.idle }

/-- The same chip in the middle of an asynchronous operation: two further
status reads will still report BUSY. -/
def chip0busy : Chip :=
  {chip0 with busyCycles := 2}

theorem readStatus_eq (c : Chip) :
    readStatus c =
      (statusByte c, {c with busyCycles := c.busyCycles - 1, frame := Frame.idle},
        [Ev.select, Ev.xfer 5 0 true (decide (0 < c.busyCycles)),
         Ev.xfer 0 (statusByte c) false (decide (0 < c.busyCycles)), Ev.deselect 0]) :=
  rfl

theorem statusByte_and_one (c : Chip) :
    decide (statusByte c &&& 1 ≠ 0) = decide (0 < c.busyCycles) := by
  by_cases hb : 0 < c.busyCycles <;> cases hw : c.wel <;>
    simp [statusByte, hb, hw]

theorem busy_eq (c : Chip) :
    busy c = (decide (0 < c.busyCycles),
      {c with busyCycles := c.busyCycles - 1, frame := Frame.idle},
      [Ev.select, Ev.xfer 5 0 true (decide (0 < c.busyCycles)),
       Ev.xfer 0 (statusByte c) false (decide (0 < c.busyCycles)), Ev.deselect 0]) := by
  unfold busy
  rw [readStatus_eq]
  exact congrArg (fun b => (b, _, _)) (statusByte_and_one c)

theorem busyWaitGo_eq (n : Nat) :
    ∀ (mem : Nat → Nat) (w : Bool) (j : Nat) (u : List Nat) (tP tE : Nat) (fr : Frame),
      (busyWaitGo n (Chip.mk mem n w j u tP tE fr)).1 =
          Chip.mk mem 0 w j u tP tE Frame.idle ∧
        ∀ e ∈ (busyWaitGo n (Chip.mk mem n w j u tP tE fr)).2, pollEv e = true := by
  induction n with
  | zero =>
    intro mem w j u tP tE fr
    refine ⟨rfl, ?_⟩
    intro e he
    simp only [busyWaitGo, busy_eq, List.mem_cons, List.not_mem_nil, or_false] at he
    rcases he with rfl | rfl | rfl | rfl <;> rfl
  | succ k ih =>
    intro mem w j u tP tE fr
    obtain ⟨h1, h2⟩ := ih mem w j u tP tE Frame.idle
    refine ⟨?_, ?_⟩
    · simp only [busyWaitGo, busy_eq, decide_eq_true_eq, Nat.zero_lt_succ, if_true,
        Nat.add_sub_cancel]
      exact h1
    · intro e he
      simp only [busyWaitGo, busy_eq, decide_eq_true_eq, Nat.zero_lt_succ, if_true,
        Nat.add_sub_cancel, List.mem_append, List.mem_cons, List.not_mem_nil,
        or_false] at he
      rcases he with (rfl | rfl | rfl | rfl) | he
      · rfl
      · rfl
      · rfl
      · rfl
      · exact h2 e he

theorem busyWaitLoop_chip (c : Chip) :
    (busyWaitLoop c).1 = {c with busyCycles := 0, frame := Frame.idle} := by
  rcases c with ⟨mem, bc, w, j, u, tP, tE, fr⟩
  exact (busyWaitGo_eq bc mem w j u tP tE fr).1

theorem busyWaitLoop_poll (c : Chip) :
    ∀ e ∈ (busyWaitLoop c).2, pollEv e = true := by
  rcases c with ⟨mem, bc, w, j, u, tP, tE, fr⟩
  exact (busyWaitGo_eq bc mem w j u tP tE fr).2

theorem chipXfer_await_fst (mem : Nat → Nat) (bc : Nat) (w : Bool) (j : Nat)
    (u : List Nat) (tP tE : Nat) (b : Nat) :
    (chipXfer (Chip.mk mem bc w j u tP tE Frame.awaitOpcode) b).1 = 0 :=
  rfl

theorem command_false_eq (c : Chip) (cmd : Nat) :
    command c cmd false true =
      ((chipXfer {c with busyCycles := 0, frame := Frame.awaitOpcode} cmd).2,
        (busyWaitLoop c).2 ++ [Ev.select, Ev.xfer cmd 0 true false]) := by
  rcases hbw : busyWaitLoop c with ⟨c1, t1⟩
  have h1 : c1 = {c with busyCycles := 0, frame := Frame.idle} := by
    have h := busyWaitLoop_chip c
    rw [hbw] at h
    exact h
  subst h1
  simp only [command, select, unselect, transfer, isAwait, hbw, if_true, if_false,
    Bool.false_eq_true, chipXfer_await_fst, Nat.lt_irrefl, decide_False,
    List.nil_append, List.append_assoc, List.cons_append, List.singleton_append]

theorem command_true_eq (c : Chip) (cmd : Nat) :
    command c cmd true true =
      ((chipXfer {c with wel := true, busyCycles := 0, frame := Frame.awaitOpcode} cmd).2,
        Ev.select :: Ev.xfer 6 0 true (decide (0 < c.busyCycles)) :: Ev.deselect 0 ::
          ((busyWaitLoop {c with wel := true, frame := Frame.idle}).2 ++
            [Ev.select, Ev.xfer cmd 0 true false])) := by
  rcases hbw : busyWaitLoop {c with wel := true, frame := Frame.idle} with ⟨c1, t1⟩
  have h1 : c1 = {c with wel := true, busyCycles := 0, frame := Frame.idle} := by
    have h := busyWaitLoop_chip {c with wel := true, frame := Frame.idle}
    rw [hbw] at h
    exact h
  subst h1
  simp only [command, select, unselect, transfer, chipXfer, chipDeselect, isAwait,
    SPIFLASH_WRITEENABLE, hbw, if_true, if_false, Bool.false_eq_true,
    chipXfer_await_fst, Nat.lt_irrefl, decide_False, List.nil_append,
    List.append_assoc, List.cons_append, List.singleton_append]

theorem addrRecon (a : Nat) :
    ((a >>> 16) % 256 * 256 + (a >>> 8) % 256) * 256 + a % 256 = a % 16777216 := by
  rw [Nat.shiftRight_eq_div_pow, Nat.shiftRight_eq_div_pow]
  have h16 : (2 : Nat) ^ 16 = 65536 := by norm_num
  have h8 : (2 : Nat) ^ 8 = 256 := by norm_num
  rw [h16, h8]
  omega

theorem sendAddr_erA (mem : Nat → Nat) (w : Bool) (j : Nat) (u : List Nat)
    (tP tE : Nat) (sz a : Nat) :
    sendAddr (Chip.mk mem 0 w j u tP tE (Frame.erA sz 0 0)) a =
      (Chip.mk mem 0 w j u tP tE (Frame.erPend sz (a % 16777216)), addrEvs a) := by
  simp [sendAddr, transfer, chipXfer, isAwait, addrEvs]
  rw [addrRecon]

theorem sendAddr_prA (mem : Nat → Nat) (w : Bool) (j : Nat) (u : List Nat)
    (tP tE : Nat) (a : Nat) :
    sendAddr (Chip.mk mem 0 w j u tP tE (Frame.prA 0 0)) a =
      (Chip.mk mem 0 w j u tP tE
          (Frame.prog (a % 16777216 / 256 * 256) (a % 16777216 % 256)), addrEvs a) := by
  simp [sendAddr, transfer, chipXfer, isAwait, addrEvs]
  rw [addrRecon]
  refine ⟨rfl, ?_⟩
  rw [Nat.shiftRight_eq_div_pow, Nat.shiftRight_eq_div_pow]
  have h16 : (2 : Nat) ^ 16 = 65536 := by norm_num
  have h8 : (2 : Nat) ^ 8 = 256 := by norm_num
  rw [h16, h8]
  omega

theorem sendAddr_rdA (mem : Nat → Nat) (w : Bool) (j : Nat) (u : List Nat)
    (tP tE : Nat) (a : Nat) :
    sendAddr (Chip.mk mem 0 w j u tP tE (Frame.rdA 0 0)) a =
      (Chip.mk mem 0 w j u tP tE (Frame.rdOut (a % 16777216)), addrEvs a) := by
  simp [sendAddr, transfer, chipXfer, isAwait, addrEvs]
  rw [addrRecon]

theorem command_erase4K (c : Chip) :
    command c SPIFLASH_BLOCKERASE_4K true true =
      ({c with wel := true, busyCycles := 0, frame := Frame.erA 4096 0 0},
        Ev.select :: Ev.xfer 6 0 true (decide (0 < c.busyCycles)) :: Ev.deselect 0 ::
          ((busyWaitLoop {c with wel := true, frame := Frame.idle}).2 ++
            [Ev.select, Ev.xfer 32 0 true false])) := by
  rw [command_true_eq]; rfl

theorem command_erase32K (c : Chip) :
    command c SPIFLASH_BLOCKERASE_32K true true =
      ({c with wel := true, busyCycles := 0, frame := Frame.erA 32768 0 0},
        Ev.select :: Ev.xfer 6 0 true (decide (0 < c.busyCycles)) :: Ev.deselect 0 ::
          ((busyWaitLoop {c with wel := true, frame := Frame.idle}).2 ++
            [Ev.select, Ev.xfer 82 0 true false])) := by
  rw [command_true_eq]; rfl

theorem command_erase64K (c : Chip) :
    command c SPIFLASH_BLOCKERASE_64K true true =
      ({c with wel := true, busyCycles := 0, frame := Frame.erA 65536 0 0},
        Ev.select :: Ev.xfer 6 0 true (decide (0 < c.busyCycles)) :: Ev.deselect 0 ::
          ((busyWaitLoop {c with wel := true, frame := Frame.idle}).2 ++
            [Ev.select, Ev.xfer 216 0 true false])) := by
  rw [command_true_eq]; rfl

theorem command_chipErase (c : Chip) :
    command c SPIFLASH_CHIPERASE true true =
      ({c with wel := true, busyCycles := 0, frame := Frame.chipErPend},
        Ev.select :: Ev.xfer 6 0 true (decide (0 < c.busyCycles)) :: Ev.deselect 0 ::
          ((busyWaitLoop {c with wel := true, frame := Frame.idle}).2 ++
            [Ev.select, Ev.xfer 96 0 true false])) := by
  rw [command_true_eq]; rfl

theorem command_program (c : Chip) :
    command c SPIFLASH_BYTEPAGEPROGRAM true true =
      ({c with wel := true, busyCycles := 0, frame := Frame.prA 0 0},
        Ev.select :: Ev.xfer 6 0 true (decide (0 < c.busyCycles)) :: Ev.deselect 0 ::
          ((busyWaitLoop {c with wel := true, frame := Frame.idle}).2 ++
            [Ev.select, Ev.xfer 2 0 true false])) := by
  rw [command_true_eq]; rfl

theorem command_readArray (c : Chip) :
    command c SPIFLASH_ARRAYREADLOWFREQ false true =
      ({c with busyCycles := 0, frame := Frame.rdA 0 0},
        (busyWaitLoop c).2 ++ [Ev.select, Ev.xfer 3 0 true false]) := by
  rw [command_false_eq]; rfl

theorem command_idRead (c : Chip) :
    command c SPIFLASH_IDREAD false true =
      ({c with busyCycles := 0, frame := Frame.idOut 0},
        (busyWaitLoop c).2 ++ [Ev.select, Ev.xfer 159 0 true false]) := by
  rw [command_false_eq]; rfl

theorem command_macRead (c : Chip) :
    command c SPIFLASH_MACREAD false true =
      ({c with busyCycles := 0, frame := Frame.uidDummy 0},
        (busyWaitLoop c).2 ++ [Ev.select, Ev.xfer 75 0 true false]) := by
  rw [command_false_eq]; rfl

theorem command_sleepOp (c : Chip) :
    command c SPIFLASH_SLEEP false true =
      ({c with busyCycles := 0, frame := Frame.opDone},
        (busyWaitLoop c).2 ++ [Ev.select, Ev.xfer 185 0 true false]) := by
  rw [command_false_eq]; rfl

theorem command_wakeOp (c : Chip) :
    command c SPIFLASH_WAKE false true =
      ({c with busyCycles := 0, frame := Frame.opDone},
        (busyWaitLoop c).2 ++ [Ev.select, Ev.xfer 171 0 true false]) := by
  rw [command_false_eq]; rfl

theorem transferList_prog (bs : List Nat) :
    ∀ (mem : Nat → Nat) (w : Bool) (j : Nat) (u : List Nat) (tP tE : Nat)
      (page off : Nat), off < 256 →
      transferList (Chip.mk mem 0 w j u tP tE (Frame.prog page off)) bs =
        (Chip.mk (progWrite mem page off bs) 0 w j u tP tE
            (Frame.prog page ((off + bs.length) % 256)),
          bs.map (fun b => Ev.xfer b 0 false false)) := by
  induction bs with
  | nil =>
    intro mem w j u tP tE page off hoff
    simp only [transferList, progWrite, List.length_nil, Nat.add_zero, List.map_nil]
    rw [Nat.mod_eq_of_lt hoff]
  | cons b bs ih =>
    intro mem w j u tP tE page off hoff
    simp only [transferList, transfer, chipXfer, isAwait, progWrite, List.map_cons,
      List.length_cons, Nat.lt_irrefl, decide_False]
    rw [ih _ w j u tP tE page ((off + 1) % 256) (Nat.mod_lt _ (by omega))]
    have harith : ((off + 1) % 256 + bs.length) % 256 = (off + (bs.length + 1)) % 256 := by
      omega
    rw [harith]
    rfl

theorem readList_rdOut (n : Nat) :
    ∀ (mem : Nat → Nat) (w : Bool) (j : Nat) (u : List Nat) (tP tE : Nat) (a : Nat),
      readList (Chip.mk mem 0 w j u tP tE (Frame.rdOut a)) n =
        (readOutBytes mem a n, Chip.mk mem 0 w j u tP tE (Frame.rdOut (a + n)),
          readOutEvs mem a n) := by
  induction n with
  | zero =>
    intro mem w j u tP tE a
    simp only [readList, readOutBytes, readOutEvs, Nat.add_zero]
  | succ k ih =>
    intro mem w j u tP tE a
    simp only [readList, transfer, chipXfer, isAwait, readOutBytes, readOutEvs,
      Nat.lt_irrefl, decide_False, List.cons_append, List.nil_append]
    rw [ih]
    have harith : a + 1 + k = a + (k + 1) := by omega
    rw [harith]

theorem blockErase4K_eq (c : Chip) (a : Nat) :
    blockErase4K c a =
      ({c with
          mem := eraseRange c.mem (a % 16777216 / 4096 * 4096) 4096,
          busyCycles := c.tErase, wel := false, frame := Frame.idle},
        (command c SPIFLASH_BLOCKERASE_4K true true).2 ++ addrEvs a ++
          [Ev.deselect 0]) := by
  simp only [blockErase4K]
  rw [command_erase4K]
  dsimp only
  rw [sendAddr_erA]
  rfl

theorem blockErase32K_eq (c : Chip) (a : Nat) :
    blockErase32K c a =
      ({c with
          mem := eraseRange c.mem (a % 16777216 / 32768 * 32768) 32768,
          busyCycles := c.tErase, wel := false, frame := Frame.idle},
        (command c SPIFLASH_BLOCKERASE_32K true true).2 ++ addrEvs a ++
          [Ev.deselect 0]) := by
  simp only [blockErase32K]
  rw [command_erase32K]
  dsimp only
  rw [sendAddr_erA]
  rfl

theorem blockErase64K_eq (c : Chip) (a : Nat) :
    blockErase64K c a =
      ({c with
          mem := eraseRange c.mem (a % 16777216 / 65536 * 65536) 65536,
          busyCycles := c.tErase, wel := false, frame := Frame.idle},
        (command c SPIFLASH_BLOCKERASE_64K true true).2 ++ addrEvs a ++
          [Ev.deselect 0]) := by
  simp only [blockErase64K]
  rw [command_erase64K]
  dsimp only
  rw [sendAddr_erA]
  rfl

theorem chipErase_eq (c : Chip) :
    chipErase c =
      ({c with
          mem := fun _ => 255,
          busyCycles := c.tErase, wel := false, frame := Frame.idle},
        (command c SPIFLASH_CHIPERASE true true).2 ++ [Ev.deselect 0]) := by
  simp only [chipErase]
  rw [command_chipErase]
  rfl

theorem writeBytes_eq (c : Chip) (a : Nat) (buf : List Nat) :
    writeBytes c a buf =
      ({c with
          mem := progWrite c.mem (a % 16777216 / 256 * 256) (a % 16777216 % 256) buf,
          busyCycles := c.tProg, wel := false, frame := Frame.idle},
        (command c SPIFLASH_BYTEPAGEPROGRAM true true).2 ++ addrEvs a ++
          buf.map (fun b => Ev.xfer b 0 false false) ++ [Ev.deselect 0]) := by
  simp only [writeBytes]
  rw [command_program]
  dsimp only
  rw [sendAddr_prA]
  dsimp only
  rw [transferList_prog buf _ _ _ _ _ _ _ _ (Nat.mod_lt _ (by norm_num))]
  rfl

theorem writeByte_eq (c : Chip) (a v : Nat) :
    writeByte c a v =
      ({c with
          mem := fun x => if x = a % 16777216 then c.mem (a % 16777216) &&& v else c.mem x,
          busyCycles := c.tProg, wel := false, frame := Frame.idle},
        (command c SPIFLASH_BYTEPAGEPROGRAM true true).2 ++ addrEvs a ++
          [Ev.xfer v 0 false false, Ev.deselect 0]) := by
  simp only [writeByte]
  rw [command_program]
  dsimp only
  rw [sendAddr_prA]
  dsimp only
  simp only [transfer, chipXfer, isAwait, unselect, chipDeselect, Nat.lt_irrefl,
    decide_False, Nat.div_add_mod']
  simp only [List.append_assoc, List.singleton_append, List.cons_append, List.nil_append]

theorem readBytes_eq (c : Chip) (a n : Nat) :
    readBytes c a n =
      (readOutBytes c.mem (a % 16777216) n,
        {c with busyCycles := 0, frame := Frame.idle},
        (command c SPIFLASH_ARRAYREADLOWFREQ false true).2 ++ addrEvs a ++
          readOutEvs c.mem (a % 16777216) n ++ [Ev.deselect 0]) := by
  simp only [readBytes]
  rw [command_readArray]
  dsimp only
  rw [sendAddr_rdA]
  dsimp only
  rw [readList_rdOut]
  rfl

theorem readByte_eq (c : Chip) (a : Nat) :
    readByte c a =
      (c.mem (a % 16777216), {c with busyCycles := 0, frame := Frame.idle},
        (command c SPIFLASH_ARRAYREADLOWFREQ false true).2 ++ addrEvs a ++
          [Ev.xfer 0 (c.mem (a % 16777216)) false false, Ev.deselect 0]) := by
  simp only [readByte]
  rw [command_readArray]
  dsimp only
  rw [sendAddr_rdA]
  dsimp only
  simp only [transfer, unselect, chipXfer, chipDeselect, isAwait, Nat.lt_irrefl,
    decide_False, List.append_assoc, List.singleton_append, List.cons_append,
    List.nil_append]

theorem readDeviceId_eq (c : Chip) :
    readDeviceId c =
      ((c.jedecId >>> 8) % 256 * 256 + c.jedecId % 256,
        {c with busyCycles := 0, frame := Frame.idle},
        (command c SPIFLASH_IDREAD false true).2 ++
          [Ev.xfer 0 ((c.jedecId >>> 8) % 256) false false,
           Ev.xfer 0 (c.jedecId % 256) false false, Ev.deselect 0]) := by
  simp only [readDeviceId]
  rw [command_idRead]
  dsimp only
  simp [transfer, unselect, chipXfer, chipDeselect, isAwait]

theorem readUniqueId_eq (h : SPIFlash) (w : World) :
    readUniqueId h w =
      (BufRef.uniqueIdStatic,
        { chip := {w.chip with busyCycles := 0, frame := Frame.idle},
          UNIQUEID := uidServed w.chip },
        (command w.chip SPIFLASH_MACREAD false true).2 ++
          [Ev.xfer 0 0 false false, Ev.xfer 0 0 false false, Ev.xfer 0 0 false false,
           Ev.xfer 0 0 false false,
           Ev.xfer 0 (w.chip.uid.getD 0 0) false false,
           Ev.xfer 0 (w.chip.uid.getD 1 0) false false,
           Ev.xfer 0 (w.chip.uid.getD 2 0) false false,
           Ev.xfer 0 (w.chip.uid.getD 3 0) false false,
           Ev.xfer 0 (w.chip.uid.getD 4 0) false false,
           Ev.xfer 0 (w.chip.uid.getD 5 0) false false,
           Ev.xfer 0 (w.chip.uid.getD 6 0) false false,
           Ev.xfer 0 (w.chip.uid.getD 7 0) false false, Ev.deselect 0]) := by
  simp only [readUniqueId]
  rw [command_macRead]
  dsimp only
  simp [transfer, unselect, chipXfer, chipDeselect, isAwait, uidServed]

theorem initializeDevice_eq (h : SPIFlash) (c : Chip) :
    initializeDevice h c =
      ((h.jedecID == 0) || ((c.jedecId >>> 8) % 256 * 256 + c.jedecId % 256 == h.jedecID),
        {c with busyCycles := 0, frame := Frame.idle},
        Ev.select :: Ev.deselect 0 ::
          ((command {c with frame := Frame.idle} SPIFLASH_IDREAD false true).2 ++
            [Ev.xfer 0 ((c.jedecId >>> 8) % 256) false false,
             Ev.xfer 0 (c.jedecId % 256) false false, Ev.deselect 0])) := by
  simp only [initializeDevice, select, unselect, chipDeselect]
  rw [readDeviceId_eq]
  dsimp only
  simp [transfer, unselect, chipXfer, chipDeselect, isAwait]

theorem sleep_eq (c : Chip) :
    sleep c = ({c with busyCycles := 0, frame := Frame.idle},
      (command c SPIFLASH_SLEEP false true).2 ++ [Ev.deselect 0]) := by
  simp only [sleep]
  rw [command_sleepOp]
  dsimp only
  simp [transfer, unselect, chipXfer, chipDeselect, isAwait]

theorem wakeup_eq (c : Chip) :
    wakeup c = ({c with busyCycles := 0, frame := Frame.idle},
      (command c SPIFLASH_WAKE false true).2 ++ [Ev.deselect 3]) := by
  simp only [wakeup]
  rw [command_wakeOp]
  dsimp only
  simp [transfer, unselect, chipXfer, chipDeselect, isAwait, SPIFLASH_T_RES_1_US]

theorem land255 (b : Nat) (hb : b < 256) : 255 &&& b = b := by
  rw [Nat.land_comm]
  have h : (2 : Nat) ^ 8 - 1 = 255 := by norm_num
  rw [← h]
  exact Nat.and_pow_two_sub_one_of_lt_two_pow (by simpa using hb)

theorem progWrite_untouched :
    ∀ (bs : List Nat) (mem : Nat → Nat) (page off X : Nat), off < 256 →
      (∀ j, j < bs.length → page + (off + j) % 256 ≠ X) →
      progWrite mem page off bs X = mem X := by
  intro bs
  induction bs with
  | nil => intro mem page off X hoff hj; rfl
  | cons b bs ih =>
    intro mem page off X hoff hj
    simp only [progWrite]
    have hrest : ∀ j, j < bs.length → page + ((off + 1) % 256 + j) % 256 ≠ X := by
      intro j hjlen
      have h := hj (j + 1) (by simpa [List.length_cons] using Nat.succ_lt_succ hjlen)
      have harith : ((off + 1) % 256 + j) % 256 = (off + (j + 1)) % 256 := by omega
      rw [harith]
      exact h
    rw [ih _ page ((off + 1) % 256) X (Nat.mod_lt _ (by omega)) hrest]
    have h0 : page + off ≠ X := by
      have h := hj 0 (by simp)
      rwa [Nat.add_zero, Nat.mod_eq_of_lt hoff] at h
    exact if_neg (fun h => h0 h.symm)

theorem progWrite_get :
    ∀ (bs : List Nat) (mem : Nat → Nat) (page off : Nat), off < 256 → bs.length ≤ 256 →
      ∀ i, ∀ hi : i < bs.length,
        progWrite mem page off bs (page + (off + i) % 256) =
          mem (page + (off + i) % 256) &&& bs.get ⟨i, hi⟩ := by
  intro bs
  induction bs with
  | nil => intro mem page off hoff hlen i hi; exact absurd hi (Nat.not_lt_zero i)
  | cons b bs ih =>
    intro mem page off hoff hlen i hi
    have hlen' : bs.length ≤ 255 := by simpa [List.length_cons] using hlen
    cases i with
    | zero =>
      have he : (off + 0) % 256 = off := by omega
      rw [he]
      simp only [progWrite]
      have hunt : ∀ j, j < bs.length → page + ((off + 1) % 256 + j) % 256 ≠ page + off := by
        intro j hjl
        have hj1 : j + 1 ≤ 255 := by omega
        have : ((off + 1) % 256 + j) % 256 = (off + (j + 1)) % 256 := by omega
        rw [this]
        omega
      rw [progWrite_untouched bs _ page ((off + 1) % 256) (page + off)
        (Nat.mod_lt _ (by omega)) hunt]
      simp

    | succ i' =>
      have hi' : i' < bs.length := by
        simpa [List.length_cons] using Nat.lt_of_succ_lt_succ hi
      simp only [progWrite]
      have harith : (off + (i' + 1)) % 256 = ((off + 1) % 256 + i') % 256 := by omega
      rw [harith]
      rw [ih _ page ((off + 1) % 256) (Nat.mod_lt _ (by omega)) (by omega) i' hi']
      have hne : page + ((off + 1) % 256 + i') % 256 ≠ page + off := by
        have h1 : ((off + 1) % 256 + i') % 256 = (off + (i' + 1)) % 256 := by omega
        rw [h1]
        have h2 : i' + 1 ≤ 255 := by omega
        omega
      rw [if_neg hne]
      rfl

theorem readOutBytes_pointwise :
    ∀ (buf : List Nat) (mem : Nat → Nat) (a : Nat),
      (∀ i, ∀ hi : i < buf.length, mem (a + i) = buf.get ⟨i, hi⟩) →
      readOutBytes mem a buf.length = buf := by
  intro buf
  induction buf with
  | nil => intro mem a _; rfl
  | cons b bs ih =>
    intro mem a h
    simp only [List.length_cons, readOutBytes]
    have h0 : mem (a + 0) = b := h 0 (Nat.succ_pos _)
    rw [Nat.add_zero] at h0
    rw [h0]
    congr 1
    apply ih
    intro i hi
    have hv := h (i + 1) (Nat.succ_lt_succ hi)
    have harith : a + (i + 1) = a + 1 + i := by omega
    rw [harith] at hv
    exact hv

theorem noBusyViol_nil : noBusyViol [] := by
  intro e he
  cases he

theorem noBusyViol_append {t1 t2 : List Ev} (h1 : noBusyViol t1) (h2 : noBusyViol t2) :
    noBusyViol (t1 ++ t2) := by
  intro e he
  rcases List.mem_append.1 he with h | h
  · exact h1 e h
  · exact h2 e h

theorem noBusyViol_cons {e : Ev} {t : List Ev}
    (h1 : isWriteClassIssue e = true → evBusyBefore e = false) (h2 : noBusyViol t) :
    noBusyViol (e :: t) := by
  intro x hx hisw
  rcases List.mem_cons.1 hx with rfl | hx
  · exact h1 hisw
  · exact h2 x hx hisw

theorem noBusyViol_poll {t : List Ev} (hp : ∀ e ∈ t, pollEv e = true) :
    noBusyViol t := by
  intro e he hisw
  have hpe := hp e he
  cases e with
  | select => rfl
  | deselect us => rfl
  | xfer m r atOp bb =>
    cases atOp
    · simp [isWriteClassIssue] at hisw
    · simp only [pollEv, Bool.true_and, Bool.not_true, Bool.false_and,
        Bool.or_false] at hpe
      simp only [isWriteClassIssue, Bool.true_and, Bool.or_eq_true,
        beq_iff_eq] at hisw
      simp only [beq_iff_eq] at hpe
      omega

theorem noBusyViol_addrEvs (a : Nat) : noBusyViol (addrEvs a) := by
  intro e he hisw
  simp only [addrEvs, List.mem_cons, List.not_mem_nil, or_false] at he
  rcases he with rfl | rfl | rfl <;> simp [isWriteClassIssue] at hisw

theorem noBusyViol_dataEvs (bs : List Nat) :
    noBusyViol (bs.map (fun b => Ev.xfer b 0 false false)) := by
  intro e he hisw
  rcases List.mem_map.1 he with ⟨b, _, rfl⟩
  simp [isWriteClassIssue] at hisw

theorem noBusyViol_readOutEvs (mem : Nat → Nat) :
    ∀ (n a : Nat), noBusyViol (readOutEvs mem a n) := by
  intro n
  induction n with
  | zero => intro a; exact noBusyViol_nil
  | succ k ih =>
    intro a
    refine noBusyViol_cons ?_ (ih (a + 1))
    intro hisw
    simp [isWriteClassIssue] at hisw

theorem noBusyViol_deselect (us : Nat) : noBusyViol [Ev.deselect us] := by
  intro e he hisw
  simp only [List.mem_cons, List.not_mem_nil, or_false] at he
  subst he
  simp [isWriteClassIssue] at hisw

theorem noBusyViol_command_true (c : Chip) (cmd : Nat) (isW : Bool) :
    noBusyViol (command c cmd isW true).2 := by
  cases isW
  · rw [command_false_eq]
    refine noBusyViol_append (noBusyViol_poll (busyWaitLoop_poll c)) ?_
    intro e he hisw
    simp only [List.mem_cons, List.not_mem_nil, or_false] at he
    rcases he with rfl | rfl
    · simp [isWriteClassIssue] at hisw
    · rfl
  · rw [command_true_eq]
    refine noBusyViol_cons ?_ (noBusyViol_cons ?_ (noBusyViol_cons ?_ ?_))
    · intro hisw; simp [isWriteClassIssue] at hisw
    · intro hisw; simp [isWriteClassIssue] at hisw
    · intro hisw; simp [isWriteClassIssue] at hisw
    · refine noBusyViol_append
        (noBusyViol_poll (busyWaitLoop_poll {c with wel := true, frame := Frame.idle})) ?_
      intro e he hisw
      simp only [List.mem_cons, List.not_mem_nil, or_false] at he
      rcases he with rfl | rfl
      · simp [isWriteClassIssue] at hisw
      · rfl

theorem pollEv_not_WE {e : Ev} (h : pollEv e = true) : isWEissue e = false := by
  cases e with
  | select => rfl
  | deselect u => rfl
  | xfer m r atOp bb =>
    cases atOp
    · rfl
    · simp only [pollEv, Bool.true_and, Bool.not_true, Bool.false_and,
        Bool.or_false, beq_iff_eq] at h
      simp [isWEissue, h]

theorem countWE_poll (c : Chip) : (busyWaitLoop c).2.countP isWEissue = 0 :=
  List.countP_eq_zero.2 (fun e he => by
    simp [pollEv_not_WE (busyWaitLoop_poll c e he)])

theorem countWE_addrEvs (a : Nat) : (addrEvs a).countP isWEissue = 0 := by
  simp [addrEvs, List.countP_cons, isWEissue]

theorem countWE_data (bs : List Nat) :
    (bs.map (fun b => Ev.xfer b 0 false false)).countP isWEissue = 0 :=
  List.countP_eq_zero.2 (fun e he => by
    rcases List.mem_map.1 he with ⟨b, _, rfl⟩
    simp [isWEissue])

/-- The write-enable discipline of a mutating operation's trace: the trace
opens with the standalone 0x06 command bracketed by its own select and
deselect, that is the only write-enable issue in the whole trace, and a
write-enable issue strictly precedes every write-class opcode issue. -/
def weDiscipline (t : List Ev) : Prop :=
  (∃ bb rest, t = Ev.select :: Ev.xfer 6 0 true bb :: Ev.deselect 0 :: rest ∧
      rest.countP isWEissue = 0) ∧
    t.countP isWEissue = 1 ∧
    ∀ i, ∀ hix : i < t.length, isWriteClassIssue (t.get ⟨i, hix⟩) = true →
      ∃ j, ∃ hjx : j < t.length, j < i ∧ isWEissue (t.get ⟨j, hjx⟩) = true

theorem weDiscipline_of_prefix (bb : Bool) (rest : List Ev)
    (hcount : rest.countP isWEissue = 0) :
    weDiscipline (Ev.select :: Ev.xfer 6 0 true bb :: Ev.deselect 0 :: rest) := by
  refine ⟨⟨bb, rest, rfl, hcount⟩, ?_, ?_⟩
  · simp [List.countP_cons, isWEissue, hcount]
  · intro i hix hisw
    refine ⟨1, by simp, ?_, by simp [isWEissue]⟩
    match i with
    | 0 => simp [isWriteClassIssue] at hisw
    | 1 => simp [isWriteClassIssue] at hisw
    | 2 => simp [isWriteClassIssue] at hisw
    | i + 3 => omega

theorem command_true_false_eq (c : Chip) (cmd : Nat) :
    command c cmd true false =
      ((chipXfer {c with wel := true, frame := Frame.awaitOpcode} cmd).2,
        [Ev.select, Ev.xfer 6 0 true (decide (0 < c.busyCycles)), Ev.deselect 0,
         Ev.select, Ev.xfer cmd 0 true (decide (0 < c.busyCycles))]) := by
  simp only [command, select, unselect, transfer, chipXfer, chipDeselect, isAwait,
    SPIFLASH_WRITEENABLE, if_true, if_false, Bool.false_eq_true,
    chipXfer_await_fst, List.nil_append, List.append_assoc, List.cons_append,
    List.singleton_append]

theorem noBusyViol_readStatusTrace (c : Chip) : noBusyViol (readStatus c).2.2 := by
  rw [readStatus_eq]
  dsimp only
  refine noBusyViol_poll ?_
  intro e he
  simp only [List.mem_cons, List.not_mem_nil, or_false] at he
  rcases he with rfl | rfl | rfl | rfl <;> rfl

theorem noBusyViol_busyTrace (c : Chip) : noBusyViol (busy c).2.2 := by
  rw [busy_eq]
  dsimp only
  refine noBusyViol_poll ?_
  intro e he
  simp only [List.mem_cons, List.not_mem_nil, or_false] at he
  rcases he with rfl | rfl | rfl | rfl <;> rfl

theorem noBusyViol_blockErase4K (c : Chip) (a : Nat) :
    noBusyViol (blockErase4K c a).2 := by
  rw [blockErase4K_eq]
  dsimp only
  simp only [List.append_assoc]
  exact noBusyViol_append (noBusyViol_command_true c _ true)
    (noBusyViol_append (noBusyViol_addrEvs a) (noBusyViol_deselect 0))

theorem noBusyViol_blockErase32K (c : Chip) (a : Nat) :
    noBusyViol (blockErase32K c a).2 := by
  rw [blockErase32K_eq]
  dsimp only
  simp only [List.append_assoc]
  exact noBusyViol_append (noBusyViol_command_true c _ true)
    (noBusyViol_append (noBusyViol_addrEvs a) (noBusyViol_deselect 0))

theorem noBusyViol_blockErase64K (c : Chip) (a : Nat) :
    noBusyViol (blockErase64K c a).2 := by
  rw [blockErase64K_eq]
  dsimp only
  simp only [List.append_assoc]
  exact noBusyViol_append (noBusyViol_command_true c _ true)
    (noBusyViol_append (noBusyViol_addrEvs a) (noBusyViol_deselect 0))

theorem noBusyViol_chipErase (c : Chip) : noBusyViol (chipErase c).2 := by
  rw [chipErase_eq]
  dsimp only
  exact noBusyViol_append (noBusyViol_command_true c _ true) (noBusyViol_deselect 0)

theorem noBusyViol_writeByte (c : Chip) (a v : Nat) :
    noBusyViol (writeByte c a v).2 := by
  rw [writeByte_eq]
  dsimp only
  simp only [List.append_assoc]
  refine noBusyViol_append (noBusyViol_command_true c _ true)
    (noBusyViol_append (noBusyViol_addrEvs a) (noBusyViol_cons ?_ (noBusyViol_deselect 0)))
  intro hisw
  simp [isWriteClassIssue] at hisw

theorem noBusyViol_writeBytes (c : Chip) (a : Nat) (buf : List Nat) :
    noBusyViol (writeBytes c a buf).2 := by
  rw [writeBytes_eq]
  dsimp only
  simp only [List.append_assoc]
  exact noBusyViol_append (noBusyViol_command_true c _ true)
    (noBusyViol_append (noBusyViol_addrEvs a)
      (noBusyViol_append (noBusyViol_dataEvs buf) (noBusyViol_deselect 0)))

theorem noBusyViol_readByte (c : Chip) (a : Nat) :
    noBusyViol (readByte c a).2.2 := by
  rw [readByte_eq]
  dsimp only
  simp only [List.append_assoc]
  refine noBusyViol_append (noBusyViol_command_true c _ false)
    (noBusyViol_append (noBusyViol_addrEvs a) (noBusyViol_cons ?_ (noBusyViol_deselect 0)))
  intro hisw
  simp [isWriteClassIssue] at hisw

theorem noBusyViol_readBytes (c : Chip) (a n : Nat) :
    noBusyViol (readBytes c a n).2.2 := by
  rw [readBytes_eq]
  dsimp only
  simp only [List.append_assoc]
  exact noBusyViol_append (noBusyViol_command_true c _ false)
    (noBusyViol_append (noBusyViol_addrEvs a)
      (noBusyViol_append (noBusyViol_readOutEvs c.mem n (a % 16777216))
        (noBusyViol_deselect 0)))

theorem noBusyViol_readDeviceId (c : Chip) :
    noBusyViol (readDeviceId c).2.2 := by
  rw [readDeviceId_eq]
  dsimp only
  refine noBusyViol_append (noBusyViol_command_true c _ false)
    (noBusyViol_cons ?_ (noBusyViol_cons ?_ (noBusyViol_deselect 0))) <;>
    (intro hisw; simp [isWriteClassIssue] at hisw)

theorem noBusyViol_readUniqueId (h : SPIFlash) (w : World) :
    noBusyViol (readUniqueId h w).2.2 := by
  rw [readUniqueId_eq]
  dsimp only
  refine noBusyViol_append (noBusyViol_command_true w.chip _ false) ?_
  intro e he hisw
  simp only [List.mem_cons, List.not_mem_nil, or_false] at he
  rcases he with rfl | rfl | rfl | rfl | rfl | rfl | rfl | rfl | rfl | rfl | rfl | rfl | rfl <;>
    simp [isWriteClassIssue] at hisw

theorem noBusyViol_initializeDevice (h : SPIFlash) (c : Chip) :
    noBusyViol (initializeDevice h c).2.2 := by
  rw [initializeDevice_eq]
  dsimp only
  refine noBusyViol_cons (fun hisw => by simp [isWriteClassIssue] at hisw)
    (noBusyViol_cons (fun hisw => by simp [isWriteClassIssue] at hisw) ?_)
  refine noBusyViol_append (noBusyViol_command_true _ _ false)
    (noBusyViol_cons ?_ (noBusyViol_cons ?_ (noBusyViol_deselect 0))) <;>
    (intro hisw; simp [isWriteClassIssue] at hisw)

theorem noBusyViol_sleep (c : Chip) : noBusyViol (sleep c).2 := by
  rw [sleep_eq]
  dsimp only
  exact noBusyViol_append (noBusyViol_command_true c _ false) (noBusyViol_deselect 0)

theorem noBusyViol_wakeup (c : Chip) : noBusyViol (wakeup c).2 := by
  rw [wakeup_eq]
  dsimp only
  exact noBusyViol_append (noBusyViol_command_true c _ false) (noBusyViol_deselect 3)

theorem weDiscipline_blockErase4K (c : Chip) (a : Nat) :
    weDiscipline (blockErase4K c a).2 := by
  rw [blockErase4K_eq]
  dsimp only
  rw [command_erase4K]
  dsimp only
  simp only [List.cons_append, List.append_assoc]
  apply weDiscipline_of_prefix
  simp [List.countP_append, List.countP_cons, countWE_poll, countWE_addrEvs, isWEissue]

theorem weDiscipline_blockErase32K (c : Chip) (a : Nat) :
    weDiscipline (blockErase32K c a).2 := by
  rw [blockErase32K_eq]
  dsimp only
  rw [command_erase32K]
  dsimp only
  simp only [List.cons_append, List.append_assoc]
  apply weDiscipline_of_prefix
  simp [List.countP_append, List.countP_cons, countWE_poll, countWE_addrEvs, isWEissue]

theorem weDiscipline_blockErase64K (c : Chip) (a : Nat) :
    weDiscipline (blockErase64K c a).2 := by
  rw [blockErase64K_eq]
  dsimp only
  rw [command_erase64K]
  dsimp only
  simp only [List.cons_append, List.append_assoc]
  apply weDiscipline_of_prefix
  simp [List.countP_append, List.countP_cons, countWE_poll, countWE_addrEvs, isWEissue]

theorem weDiscipline_chipErase (c : Chip) :
    weDiscipline (chipErase c).2 := by
  rw [chipErase_eq]
  dsimp only
  rw [command_chipErase]
  dsimp only
  simp only [List.cons_append, List.append_assoc]
  apply weDiscipline_of_prefix
  simp [List.countP_append, List.countP_cons, countWE_poll, isWEissue]

theorem weDiscipline_writeByte (c : Chip) (a v : Nat) :
    weDiscipline (writeByte c a v).2 := by
  rw [writeByte_eq]
  dsimp only
  rw [command_program]
  dsimp only
  simp only [List.cons_append, List.append_assoc]
  apply weDiscipline_of_prefix
  simp [List.countP_append, List.countP_cons, countWE_poll, countWE_addrEvs, isWEissue]

theorem weDiscipline_writeBytes (c : Chip) (a : Nat) (buf : List Nat) :
    weDiscipline (writeBytes c a buf).2 := by
  rw [writeBytes_eq]
  dsimp only
  rw [command_program]
  dsimp only
  simp only [List.cons_append, List.append_assoc]
  apply weDiscipline_of_prefix
  simp [List.countP_append, List.countP_cons, countWE_poll, countWE_addrEvs,
    countWE_data, isWEissue]

/-- The member functions declared by the SPIFlash class in src/SPIFlash.h
lines 71-97, in declaration order (the constructor first, then the public
methods of lines 75-91 and the protected methods of lines 93-94).  The
class declaration is complete in the header: these are all the members the
driver exposes. -/
def SPIFlashDeclaredMethods : List String :=
  [ "SPIFlash", "initialize", "command", "readStatus", "readByte",
    "readBytes", "writeByte", "writeBytes", "busy", "chipErase",
    "blockErase4K", "blockErase32K", "readDeviceId", "readUniqueId",
    "sleep", "wakeup", "end", "select", "unselect"]

/-- C1 counterexample: against the claim's "the driver exposes three
block-erase operations, blockErase4K, blockErase32K and blockErase64K",
the complete class declaration in src/SPIFlash.h lines 71-97 declares the
first two but no blockErase64K member, so the driver does not expose a
third block-erase operation. -/
theorem spiflash_C1_counterexample :
    "blockErase64K" ∉ SPIFlashDeclaredMethods ∧
      "blockErase4K" ∈ SPIFlashDeclaredMethods ∧
      "blockErase32K" ∈ SPIFlashDeclaredMethods := by
  decide

/-- C1 (amended): the driver exposes two block-erase operations,
blockErase4K and blockErase32K; each issues its erase opcode (0x20, 0x52
respectively) through `command` with `isWrite = true` and
`busyWait = true` (a write-class, busy-waiting command) followed on the
bus by the three big-endian address bytes of the target sector/block, then
deselects.  The 64K erase opcode 0xD8 is defined in the header
(SPIFLASH_BLOCKERASE_64K, line 54) but no blockErase64K member is
declared in the class interface. -/
theorem spiflash_C1 (c : Chip) (a : Nat) :
    (blockErase4K c a).2 =
        (command c SPIFLASH_BLOCKERASE_4K true true).2 ++ addrEvs a ++
          [Ev.deselect 0] ∧
      (blockErase32K c a).2 =
        (command c SPIFLASH_BLOCKERASE_32K true true).2 ++ addrEvs a ++
          [Ev.deselect 0] ∧
      SPIFLASH_BLOCKERASE_4K = 0x20 ∧ SPIFLASH_BLOCKERASE_32K = 0x52 ∧
      SPIFLASH_BLOCKERASE_64K = 0xD8 ∧
      "blockErase4K" ∈ SPIFlashDeclaredMethods ∧
      "blockErase32K" ∈ SPIFlashDeclaredMethods ∧
      "blockErase64K" ∉ SPIFlashDeclaredMethods := by
  refine ⟨?_, ?_, rfl, rfl, rfl, by decide, by decide, by decide⟩
  · rw [blockErase4K_eq]
  · rw [blockErase32K_eq]

/-- C3: every `command` invocation with `isWrite = true` transmits a
standalone write-enable command (opcode 0x06) bracketed by its own
select/deselect before the requested opcode, and in the trace of every
write-class operation (block/chip erase, byte/page program) the 0x06
bracket opens the trace, the write-enable is issued exactly once, and a
write-enable issue precedes every write-class opcode issue
(0x20/0x52/0xD8/0x60/0x02/0x01). -/
theorem spiflash_C3 (c : Chip) (a v : Nat) (buf : List Nat) :
    (∀ cmd : Nat, ∀ bw : Bool, ∃ bb rest,
        (command c cmd true bw).2 =
          Ev.select :: Ev.xfer 6 0 true bb :: Ev.deselect 0 :: rest) ∧
      weDiscipline (blockErase4K c a).2 ∧ weDiscipline (blockErase32K c a).2 ∧
      weDiscipline (blockErase64K c a).2 ∧ weDiscipline (chipErase c).2 ∧
      weDiscipline (writeByte c a v).2 ∧ weDiscipline (writeBytes c a buf).2 := by
  refine ⟨?_, weDiscipline_blockErase4K c a, weDiscipline_blockErase32K c a,
    weDiscipline_blockErase64K c a, weDiscipline_chipErase c,
    weDiscipline_writeByte c a v, weDiscipline_writeBytes c a buf⟩
  intro cmd bw
  cases bw
  · exact ⟨decide (0 < c.busyCycles),
      [Ev.select, Ev.xfer cmd 0 true (decide (0 < c.busyCycles))],
      by rw [command_true_false_eq]⟩
  · exact ⟨decide (0 < c.busyCycles),
      (busyWaitLoop {c with wel := true, frame := Frame.idle}).2 ++
        [Ev.select, Ev.xfer cmd 0 true false],
      by rw [command_true_eq]⟩

/-- C3 witness: the write-enable discipline instantiated on a concrete
erase of sector 0 on the idle test chip. -/
theorem spiflash_C3_witness : weDiscipline (blockErase4K chip0 0).2 :=
  (spiflash_C3 chip0 0 0 []).2.1

/-- C4: with `busyWait = true` the status register is polled until BUSY
reads clear before the requested opcode is transmitted (the opcode event
carries a cleared BUSY flag after the `busyWaitLoop` trace), and no public
driver operation ever issues a write-class opcode on the bus while the
chip reports BUSY. -/
theorem spiflash_C4 (h : SPIFlash) (w : World) (c : Chip) (a v n : Nat)
    (buf : List Nat) :
    (∀ cmd : Nat,
        (command c cmd false true).2 =
            (busyWaitLoop c).2 ++ [Ev.select, Ev.xfer cmd 0 true false] ∧
          (command c cmd true true).2 =
            Ev.select :: Ev.xfer 6 0 true (decide (0 < c.busyCycles)) ::
              Ev.deselect 0 ::
              ((busyWaitLoop {c with wel := true, frame := Frame.idle}).2 ++
                [Ev.select, Ev.xfer cmd 0 true false])) ∧
      noBusyViol (blockErase4K c a).2 ∧ noBusyViol (blockErase32K c a).2 ∧
      noBusyViol (blockErase64K c a).2 ∧ noBusyViol (chipErase c).2 ∧
      noBusyViol (writeByte c a v).2 ∧ noBusyViol (writeBytes c a buf).2 ∧
      noBusyViol (readByte c a).2.2 ∧ noBusyViol (readBytes c a n).2.2 ∧
      noBusyViol (readStatus c).2.2 ∧ noBusyViol (busy c).2.2 ∧
      noBusyViol (readDeviceId c).2.2 ∧ noBusyViol (readUniqueId h w).2.2 ∧
      noBusyViol (initializeDevice h c).2.2 ∧ noBusyViol (sleep c).2 ∧
      noBusyViol (wakeup c).2 := by
  refine ⟨?_, noBusyViol_blockErase4K c a, noBusyViol_blockErase32K c a,
    noBusyViol_blockErase64K c a, noBusyViol_chipErase c,
    noBusyViol_writeByte c a v, noBusyViol_writeBytes c a buf,
    noBusyViol_readByte c a, noBusyViol_readBytes c a n,
    noBusyViol_readStatusTrace c, noBusyViol_busyTrace c,
    noBusyViol_readDeviceId c, noBusyViol_readUniqueId h w,
    noBusyViol_initializeDevice h c, noBusyViol_sleep c, noBusyViol_wakeup c⟩
  intro cmd
  exact ⟨by rw [command_false_eq], by rw [command_true_eq]⟩

/-- C4 witness: the busy-discipline instantiated on a concrete writeByte to
a chip whose pending operation still reports BUSY for two polls. -/
theorem spiflash_C4_witness : noBusyViol (writeByte chip0busy 511 9).2 :=
  (spiflash_C4 (mkSPIFlash 1) { chip := chip0, UNIQUEID := [] } chip0busy
    511 9 0 []).2.2.2.2.2.1

/-- C2 counterexample: against the claim's "initialization with expected ID
0x0000 returns failure", on a chip reporting JEDEC id 0x1F44 the
initialization with expected id 0x0000 returns success — the expected
value 0 is the constructor's "no id supplied" default and disables
verification. -/
theorem spiflash_C2_counterexample :
    (initializeDevice { slaveSelectPin := 5, jedecID := 0x0000 } chip0).1 = true := by
  rfl

/-- C2 amended: initialization issues the device-id read and, when a
nonzero expected JEDEC id was supplied, succeeds exactly when the returned
16-bit identifier equals the expected value; with the device reporting
0x1F44, expected id 0x1F44 succeeds, a nonzero mismatched expected id
(0xEF30) fails, and expected id 0x0000 succeeds because 0 disables the
comparison. -/
theorem spiflash_C2 (h : SPIFlash) (c : Chip) (hnz : h.jedecID ≠ 0) :
    ((initializeDevice h c).1 = true ↔ (readDeviceId c).1 = h.jedecID) ∧
      (initializeDevice { slaveSelectPin := 5, jedecID := 0x1F44 } chip0).1 = true ∧
      (initializeDevice { slaveSelectPin := 5, jedecID := 0xEF30 } chip0).1 = false ∧
      (initializeDevice { slaveSelectPin := 5, jedecID := 0x0000 } chip0).1 = true := by
  refine ⟨?_, rfl, rfl, rfl⟩
  rw [initializeDevice_eq, readDeviceId_eq]
  dsimp only
  simp [hnz]

/-- C2 witness: the amended equivalence evaluated at the mock chip with
JEDEC id 0x1F44 and a supplied (nonzero) expected id 0x1F44. -/
theorem spiflash_C2_witness :
    ({ slaveSelectPin := 5, jedecID := 0x1F44 } : SPIFlash).jedecID ≠ 0 ∧
      ((initializeDevice { slaveSelectPin := 5, jedecID := 0x1F44 } chip0).1 = true ↔
        (readDeviceId chip0).1 = 0x1F44) :=
  ⟨by decide,
    (spiflash_C2 { slaveSelectPin := 5, jedecID := 0x1F44 } chip0 (by decide)).1⟩

/-- C5: on a freshly erased page, a writeBytes of a payload that lies
entirely within one 256-byte page followed by a readBytes of the same
range reproduces the payload exactly, and a writeByte followed by a
readByte of the same address yields the written byte. -/
theorem spiflash_C5 (c : Chip) (A : Nat) (buf : List Nat) (v : Nat)
    (hA : A < 16777216)
    (herased : ∀ k, k < 256 → c.mem (A / 256 * 256 + k) = 255) :
    (1 ≤ buf.length → A % 256 + buf.length ≤ 256 → (∀ b ∈ buf, b < 256) →
        (readBytes (writeBytes c A buf).1 A buf.length).1 = buf) ∧
      (v < 256 → (readByte (writeByte c A v).1 A).1 = v) := by
  constructor
  · intro hlen1 hpage hbytes
    rw [writeBytes_eq]
    dsimp only
    rw [readBytes_eq]
    dsimp only
    rw [Nat.mod_eq_of_lt hA]
    apply readOutBytes_pointwise
    intro i hi
    have hO : A % 256 + i < 256 := by omega
    have haddr : A + i = A / 256 * 256 + (A % 256 + i) % 256 := by
      rw [Nat.mod_eq_of_lt hO]
      omega
    rw [haddr]
    rw [progWrite_get buf c.mem (A / 256 * 256) (A % 256)
      (Nat.mod_lt _ (by omega)) (by omega) i hi]
    have hmem : c.mem (A / 256 * 256 + (A % 256 + i) % 256) = 255 :=
      herased _ (Nat.mod_lt _ (by omega))
    rw [hmem, land255 _ (hbytes _ (List.get_mem buf i hi))]
  · intro hv
    rw [writeByte_eq]
    dsimp only
    rw [readByte_eq]
    dsimp only
    rw [Nat.mod_eq_of_lt hA]
    rw [if_pos rfl]
    have hmem : c.mem A = 255 := by
      have h := herased (A % 256) (Nat.mod_lt _ (by omega))
      rwa [Nat.div_add_mod'] at h
    rw [hmem, land255 _ hv]

/-- C5 witness: the round trip evaluated on the erased test chip at
address 0x100 with payload [0xAA, 0xBB, 0xCC] and with a single byte 7. -/
theorem spiflash_C5_witness :
    (readBytes (writeBytes chip0 256 [170, 187, 204]).1 256 3).1 =
        [170, 187, 204] ∧
      (readByte (writeByte chip0 256 7).1 256).1 = 7 :=
  ⟨(spiflash_C5 chip0 256 [170, 187, 204] 7 (by decide) (fun k _ => rfl)).1
      (by decide) (by decide) (by decide),
    (spiflash_C5 chip0 256 [170, 187, 204] 7 (by decide) (fun k _ => rfl)).2
      (by decide)⟩

/-- C6: readDeviceId transmits opcode 0x9F, reads exactly two bytes, and
returns their big-endian concatenation — the first byte received on the
wire is the high byte; for a 16-bit device id the returned value is the
device id itself. -/
theorem spiflash_C6 (c : Chip) :
    (readDeviceId c).1 = (c.jedecId >>> 8) % 256 * 256 + c.jedecId % 256 ∧
      (readDeviceId c).2.2 =
        (command c SPIFLASH_IDREAD false true).2 ++
          [Ev.xfer 0 ((c.jedecId >>> 8) % 256) false false,
           Ev.xfer 0 (c.jedecId % 256) false false, Ev.deselect 0] ∧
      (c.jedecId < 65536 → (readDeviceId c).1 = c.jedecId) := by
  refine ⟨?_, ?_, ?_⟩
  · rw [readDeviceId_eq]
  · rw [readDeviceId_eq]
  · intro hlt
    rw [readDeviceId_eq]
    dsimp only
    rw [Nat.shiftRight_eq_div_pow]
    have h8 : (2 : Nat) ^ 8 = 256 := by norm_num
    rw [h8]
    omega

/-- C6 witness: readDeviceId on the mock chip with 16-bit JEDEC id 0x1F44
returns 0x1F44. -/
theorem spiflash_C6_witness :
    chip0.jedecId < 65536 ∧ (readDeviceId chip0).1 = 0x1F44 :=
  ⟨by decide, (spiflash_C6 chip0).2.2 (by decide)⟩

/-- C7: writeByte, writeBytes, the block erases and chipErase transmit
their command frame and deselect, and return without any status polling
after the opcode: their whole trace is the busy-waiting command prefix
followed only by address/data bytes and the final deselect, and the chip
they return is still busy for the full program/erase duration (the
asynchronous completion is not awaited). -/
theorem spiflash_C7 (c : Chip) (a v : Nat) (buf : List Nat) :
    ((writeByte c a v).2 =
        (command c SPIFLASH_BYTEPAGEPROGRAM true true).2 ++ addrEvs a ++
          [Ev.xfer v 0 false false, Ev.deselect 0] ∧
      (writeByte c a v).1.busyCycles = c.tProg) ∧
      ((writeBytes c a buf).2 =
          (command c SPIFLASH_BYTEPAGEPROGRAM true true).2 ++ addrEvs a ++
            buf.map (fun b => Ev.xfer b 0 false false) ++ [Ev.deselect 0] ∧
        (writeBytes c a buf).1.busyCycles = c.tProg) ∧
      ((blockErase4K c a).1.busyCycles = c.tErase ∧
        (blockErase32K c a).1.busyCycles = c.tErase ∧
        (blockErase64K c a).1.busyCycles = c.tErase) ∧
      ((chipErase c).2 = (command c SPIFLASH_CHIPERASE true true).2 ++
          [Ev.deselect 0] ∧
        (chipErase c).1.busyCycles = c.tErase) := by
  refine ⟨⟨?_, ?_⟩, ⟨?_, ?_⟩, ⟨?_, ?_, ?_⟩, ?_, ?_⟩
  · rw [writeByte_eq]
  · rw [writeByte_eq]
  · rw [writeBytes_eq]
  · rw [writeBytes_eq]
  · rw [blockErase4K_eq]
  · rw [blockErase32K_eq]
  · rw [blockErase64K_eq]
  · rw [chipErase_eq]
  · rw [chipErase_eq]

/-- C8: writeBytes validates nothing — for every address, payload and
length the command frame is transmitted and the operation completes
normally (first conjunct, with no error reported anywhere in the model
since the function is total); on an erased page, when the payload crosses
the 256-byte page boundary, each byte lands at the page-relative offset
taken modulo 256, so the excess bytes silently wrap to the start of the
same page. -/
theorem spiflash_C8 (c : Chip) (a : Nat) (buf : List Nat) :
    ((writeBytes c a buf).2 =
        (command c SPIFLASH_BYTEPAGEPROGRAM true true).2 ++ addrEvs a ++
          buf.map (fun b => Ev.xfer b 0 false false) ++ [Ev.deselect 0]) ∧
      (buf.length ≤ 256 → a < 16777216 →
        (∀ k, k < 256 → c.mem (a / 256 * 256 + k) = 255) → (∀ b ∈ buf, b < 256) →
        (∀ i, ∀ hi : i < buf.length,
            (writeBytes c a buf).1.mem (a / 256 * 256 + (a % 256 + i) % 256) =
              buf.get ⟨i, hi⟩) ∧
          (256 < a % 256 + buf.length →
            ∀ j, j < a % 256 + buf.length - 256 →
              (writeBytes c a buf).1.mem (a / 256 * 256 + j) =
                buf.getD (256 - a % 256 + j) 0)) := by
  constructor
  · rw [writeBytes_eq]
  · intro hlen ha herased hbytes
    have hmain : ∀ i, ∀ hi : i < buf.length,
        (writeBytes c a buf).1.mem (a / 256 * 256 + (a % 256 + i) % 256) =
          buf.get ⟨i, hi⟩ := by
      intro i hi
      rw [writeBytes_eq]
      dsimp only
      rw [Nat.mod_eq_of_lt ha]
      rw [progWrite_get buf c.mem (a / 256 * 256) (a % 256)
        (Nat.mod_lt _ (by omega)) hlen i hi]
      have hmem : c.mem (a / 256 * 256 + (a % 256 + i) % 256) = 255 :=
        herased _ (Nat.mod_lt _ (by omega))
      rw [hmem, land255 _ (hbytes _ (List.get_mem buf i hi))]
    refine ⟨hmain, ?_⟩
    intro hcross j hj
    have hidx : 256 - a % 256 + j < buf.length := by omega
    have h1 := hmain (256 - a % 256 + j) hidx
    have harith : (a % 256 + (256 - a % 256 + j)) % 256 = j := by omega
    rw [harith] at h1
    rw [h1, List.getD_eq_get buf 0 hidx]

/-- C8 witness: writing [1, 2, 3] at address 0x1FE (page offset 254) of the
erased test chip lands the third byte at the start of the same page,
address 0x100. -/
theorem spiflash_C8_witness :
    (writeBytes chip0 510 [1, 2, 3]).1.mem 256 = 3 :=
  ((spiflash_C8 chip0 510 [1, 2, 3]).2 (by decide) (by decide) (fun k _ => rfl)
    (by decide)).1 2 (by decide)

/-- C9: readUniqueId stores the 8 identifier bytes it reads into the single
process-wide static buffer modelled by `World.UNIQUEID` and returns the
same `BufRef.uniqueIdStatic` reference on every call from every handle;
the stored bytes depend only on the chip's transaction — not on the handle
and not on what the buffer held before — so a later call from any other
handle overwrites what an earlier call stored. -/
theorem spiflash_C9 (h1 h2 : SPIFlash) (w w2 : World) (cache : List Nat) :
    (readUniqueId h1 w).1 = BufRef.uniqueIdStatic ∧
      (readUniqueId h1 w).1 = (readUniqueId h2 w2).1 ∧
      (readUniqueId h1 w).2.1.UNIQUEID = uidServed w.chip ∧
      ((readUniqueId h1 w).2.1.UNIQUEID).length = 8 ∧
      (readUniqueId h2 { chip := w2.chip, UNIQUEID := cache }).2.1.UNIQUEID =
        uidServed w2.chip ∧
      (readUniqueId h2 (readUniqueId h1 w).2.1).2.1.UNIQUEID =
        uidServed (readUniqueId h1 w).2.1.chip := by
  refine ⟨rfl, rfl, ?_, ?_, ?_, ?_⟩
  · rw [readUniqueId_eq]
  · rw [readUniqueId_eq]
    rfl
  · rw [readUniqueId_eq]
  · rw [readUniqueId_eq h2 (readUniqueId h1 w).2.1]

/-- C10: a handle constructed without an expected JEDEC id gets the default
expected value 0, and an expected value of 0 disables identifier
verification entirely: initialization then reports success for every
device id the chip returns, so the value 0 can never itself act as a
verified expected id. -/
theorem spiflash_C10 (pin : Nat) (c : Chip) :
    (mkSPIFlash pin).jedecID = 0 ∧
      (initializeDevice (mkSPIFlash pin) c).1 = true := by
  refine ⟨rfl, ?_⟩
  rw [initializeDevice_eq]
  rfl
